import Mathlib

/-!
Verification of the connection-tester program (`src/main.rs`).

The program reads a network id (dotted-quad IPv4), a CIDR prefix length and a
port specification from the user, validates them with regular expressions,
expands the CIDR block into addresses, builds the list of (address, port)
targets, probes each target concurrently with a 3-second TCP connect timeout
and classifies the outcome into a closed 4-value status taxonomy.

The embedding below translates each relevant function of `src/main.rs` into a
Lean definition.  Strings are handled on `List Char` (mirroring Rust's
character-sequence view of `str`) where proofs need structural reasoning, and
on `String` where no string lemmas are required.  Nondeterministic inputs of
the environment (the resolution of a TCP connect attempt, the completion
order of the join set) are passed as explicit parameters.
-/

namespace ConnTester

/-! ## Data model (lines 36-48 of main.rs) -/

/-- `SocketAddr`: the probed endpoint, an IPv4 address (as its 32-bit numeric
value) together with a port. -/
structure SocketAddr where
  addr : Nat
  port : Nat
  deriving DecidableEq, Repr

/-- `ConnectionStatus` (main.rs lines 42-48): closed 4-value taxonomy. -/
inductive ConnectionStatus where
  | Open
  | Refused
  | Timeout
  | Unreachable
  deriving DecidableEq, Repr

/-- `ScanResult` (main.rs lines 36-40). -/
structure ScanResult where
  ip : SocketAddr
  status : ConnectionStatus
  deriving DecidableEq, Repr

/-! ## OS-level error kinds

`std::io::ErrorKind` has many variants; `check_target` names only three of
them and sends every other kind through a wildcard arm.  We model the three
named kinds as constructors and the open-ended remainder as `otherKind n`. -/

/-- The `std::io::ErrorKind` values relevant to `check_target`: the three
kinds it matches by name, and `otherKind n` standing for any of the remaining
kinds (hit by the `_` arm). -/
inductive ErrorKind where
  | connectionRefused
  | hostUnreachable
  | networkUnreachable
  | otherKind (code : Nat)
  deriving DecidableEq, Repr

/-! ## check_target (main.rs lines 220-238)

`check_target` awaits `timeout(Duration::from_secs(3), TcpStream::connect(target))`.
The environment resolves this to either `Err(Elapsed)` (the deadline fired) or
`Ok(connection_result)` where `connection_result : Result<TcpStream, io::Error>`.
We pass that resolution in as an explicit parameter
`result : Except Unit (Except ErrorKind Unit)` (`Except.error ()` = deadline
elapsed; `Except.ok (Except.ok ())` = connected; `Except.ok (Except.error k)` =
the connect resolved with an OS error of kind `k`). -/

/-- The fixed per-attempt deadline, from `Duration::from_secs(3)` on line 222. -/
def connectDeadlineSecs : Nat := 3

/-- `check_target` (main.rs lines 220-238): classifies the resolved outcome of
the single timed connect attempt and returns a `ScanResult` carrying the
probed endpoint. -/
def check_target (target : SocketAddr)
    (result : Except Unit (Except ErrorKind Unit)) : ScanResult :=
  let status :=
    match result with
    | Except.error _ => ConnectionStatus.Timeout
    | Except.ok connection_result =>
      match connection_result with
      | Except.ok _ => ConnectionStatus.Open
      | Except.error e =>
        match e with
        | ErrorKind.connectionRefused => ConnectionStatus.Refused
        | ErrorKind.hostUnreachable => ConnectionStatus.Unreachable
        | ErrorKind.networkUnreachable => ConnectionStatus.Unreachable
        | ErrorKind.otherKind _ => ConnectionStatus.Timeout
  { ip := target, status := status }

end ConnTester

namespace ConnTester

/-- C1: for every target, the single timed connect attempt (with its fixed
3-second deadline) is classified into exactly one of the four statuses:
deadline elapsed yields `Timeout`; successful resolution yields `Open`;
`ConnectionRefused` yields `Refused`; `HostUnreachable` and
`NetworkUnreachable` yield `Unreachable`; any other resolved error yields
`Timeout`. -/
theorem check_target_classification (target : SocketAddr) :
    connectDeadlineSecs = 3 ∧
    (check_target target (Except.error ())).status = ConnectionStatus.Timeout ∧
    (check_target target (Except.ok (Except.ok ()))).status = ConnectionStatus.Open ∧
    (check_target target (Except.ok (Except.error ErrorKind.connectionRefused))).status
      = ConnectionStatus.Refused ∧
    (check_target target (Except.ok (Except.error ErrorKind.hostUnreachable))).status
      = ConnectionStatus.Unreachable ∧
    (check_target target (Except.ok (Except.error ErrorKind.networkUnreachable))).status
      = ConnectionStatus.Unreachable ∧
    (∀ k : ErrorKind, k ≠ ErrorKind.connectionRefused →
      k ≠ ErrorKind.hostUnreachable → k ≠ ErrorKind.networkUnreachable →
      (check_target target (Except.ok (Except.error k))).status = ConnectionStatus.Timeout) := by
  refine ⟨rfl, rfl, rfl, rfl, rfl, rfl, ?_⟩
  intro k h1 h2 h3
  cases k with
  | connectionRefused => exact absurd rfl h1
  | hostUnreachable => exact absurd rfl h2
  | networkUnreachable => exact absurd rfl h3
  | otherKind n => rfl

/-- Witness for C1: at the concrete target 192.168.0.1:80 and the concrete
"other" error kind `otherKind 7`, the classification facts hold. -/
theorem check_target_classification_witness :
    (check_target ⟨3232235521, 80⟩
      (Except.ok (Except.error (ErrorKind.otherKind 7)))).status = ConnectionStatus.Timeout :=
  (check_target_classification ⟨3232235521, 80⟩).2.2.2.2.2.2
    (ErrorKind.otherKind 7) (by decide) (by decide) (by decide)

/-- C10: `check_target` preserves the probed endpoint: the `ip` field of the
returned `ScanResult` equals the input target, whatever the outcome. -/
theorem check_target_preserves_endpoint (target : SocketAddr)
    (result : Except Unit (Except ErrorKind Unit)) :
    (check_target target result).ip = target := by
  cases result with
  | error e => rfl
  | ok cr =>
    cases cr with
    | ok u => rfl
    | error e => cases e <;> rfl

end ConnTester

namespace ConnTester

/-! ## Verbosity levels and the result-printing loop (main.rs lines 17-22, 111-137)

The collection loop in `main` prints one line per joined task.  For a
successfully joined task it matches on `scan_result.status`: `Open` and
`Refused` have explicit arms; `Timeout` and `Unreachable` both fall into the
catch-all `_` arm, which prints "- Timeout" at level ERROR. -/

/-- `VerbosityLevel` constants (main.rs lines 17-22). -/
def VerbosityLevel.INFO : Nat := 0

/-- `VerbosityLevel::WARN`. -/
def VerbosityLevel.WARN : Nat := 1

/-- `VerbosityLevel::ERROR`. -/
def VerbosityLevel.ERROR : Nat := 2

/-- `VerbosityLevel::DEBUG`. -/
def VerbosityLevel.DEBUG : Nat := 3

/-- Rust's `Display` for an IPv4 address: dotted-quad of the four octets of
the 32-bit value. -/
def ipv4Display (a : Nat) : String :=
  toString (a / 16777216 % 256) ++ "." ++ toString (a / 65536 % 256) ++ "." ++
    toString (a / 256 % 256) ++ "." ++ toString (a % 256)

/-- Rust's `Display` for a V4 `SocketAddr`: `address:port`. -/
def SocketAddr.display (s : SocketAddr) : String :=
  ipv4Display s.addr ++ ":" ++ toString s.port

/-- The message and verbosity level printed by the result loop for one joined
`ScanResult` (main.rs lines 113-129): `Open` and `Refused` have explicit
match arms; every other status falls into the `_` arm. -/
def result_report (r : ScanResult) : String × Nat :=
  match r.status with
  | ConnectionStatus.Open => (r.ip.display ++ " - Open", VerbosityLevel.INFO)
  | ConnectionStatus.Refused => (r.ip.display ++ " - Refused", VerbosityLevel.WARN)
  | _ => (r.ip.display ++ " - Timeout", VerbosityLevel.ERROR)

/-! ## The coordinator (main.rs lines 104, 111-139)

`main` spawns one `check_target` task per target into a `JoinSet` and then
drains it with `while let Some(res) = set.join_next().await`.  Tokio's
`JoinSet::join_next` yields each spawned task's outcome exactly once, in
completion order (an arbitrary permutation of the submission order), and then
`None`.  We model the completion order as an explicit list `completions` that
is a permutation of the spawned tasks' outcomes; each outcome is
`Except.ok scanResult` (the task returned) or `Except.error msg` (the task
itself failed, Rust's `JoinError`).  After the loop ends, `main` prints
"Scan has completed". -/

/-- One event emitted to the caller by the coordinator loop. -/
inductive CoordEvent where
  | completed (r : ScanResult)
  | taskFailed (msg : String)
  | scanDone
  deriving DecidableEq, Repr

/-- The event the loop body emits for one joined outcome (main.rs
lines 112-136): a classified result on `Ok`, a task-failure report on `Err`. -/
def completionEvent : Except String ScanResult → CoordEvent
  | Except.ok r => CoordEvent.completed r
  | Except.error e => CoordEvent.taskFailed e

/-- The `while let Some(res) = set.join_next().await` loop (main.rs
lines 111-137): one event per joined outcome, in completion order. -/
def joinLoop : List (Except String ScanResult) → List CoordEvent
  | [] => []
  | Except.ok r :: rest => CoordEvent.completed r :: joinLoop rest
  | Except.error e :: rest => CoordEvent.taskFailed e :: joinLoop rest

/-- The full collection phase: the loop's events followed by the
"Scan has completed" signal (main.rs line 139). -/
def coordinator_run (completions : List (Except String ScanResult)) : List CoordEvent :=
  joinLoop completions ++ [CoordEvent.scanDone]

theorem joinLoop_eq_map (cs : List (Except String ScanResult)) :
    joinLoop cs = cs.map completionEvent := by
  induction cs with
  | nil => rfl
  | cons c rest ih => cases c <;> simp [joinLoop, completionEvent, ih]

theorem completionEvent_ne_scanDone (c : Except String ScanResult) :
    completionEvent c ≠ CoordEvent.scanDone := by
  cases c <;> simp [completionEvent]

end ConnTester

namespace ConnTester

/-- C9: a `ScanResult` with status `Unreachable` is reported by the result
loop exactly as a `Timeout` would be: the printed line is
"endpoint - Timeout" at level ERROR, identical to the line for the same
endpoint with status `Timeout`, so the user-visible output never
distinguishes the two. -/
theorem unreachable_reported_as_timeout (r : ScanResult)
    (h : r.status = ConnectionStatus.Unreachable) :
    result_report r = (r.ip.display ++ " - Timeout", VerbosityLevel.ERROR) ∧
    result_report r = result_report { ip := r.ip, status := ConnectionStatus.Timeout } := by
  obtain ⟨ip, status⟩ := r
  cases h
  exact ⟨rfl, rfl⟩

/-- Witness for C9 at the concrete result 10.0.0.1:22 / Unreachable. -/
theorem unreachable_reported_as_timeout_witness :
    result_report ⟨⟨167772161, 22⟩, ConnectionStatus.Unreachable⟩
      = ((SocketAddr.display ⟨167772161, 22⟩) ++ " - Timeout", VerbosityLevel.ERROR) :=
  (unreachable_reported_as_timeout ⟨⟨167772161, 22⟩, ConnectionStatus.Unreachable⟩ rfl).1

/-- C2: for every batch of N spawned tasks and every completion order (any
permutation of the spawned outcomes), the coordinator loop emits exactly N
completion events — one per task, each a classified result or a task-failure
event, with no duplicates and no omissions (the emitted events are a
permutation of the per-task events); it is incremental (the events for a
prefix of completions are a prefix of the output, independent of later
completions); and the completion signal is emitted exactly once, after all N
events. -/
theorem coordinator_emits_n_events
    (spawned completions : List (Except String ScanResult))
    (hperm : completions.Perm spawned) :
    (joinLoop completions).length = spawned.length ∧
    (joinLoop completions).Perm (spawned.map completionEvent) ∧
    (∀ pre post : List (Except String ScanResult),
      joinLoop (pre ++ post) = joinLoop pre ++ joinLoop post) ∧
    coordinator_run completions = joinLoop completions ++ [CoordEvent.scanDone] ∧
    CoordEvent.scanDone ∉ joinLoop completions ∧
    (coordinator_run completions).getLast? = some CoordEvent.scanDone ∧
    (coordinator_run completions).length = spawned.length + 1 := by
  have hlen := hperm.length_eq
  refine ⟨?_, ?_, ?_, rfl, ?_, ?_, ?_⟩
  · simp [joinLoop_eq_map, hlen]
  · rw [joinLoop_eq_map]
    exact hperm.map completionEvent
  · intro pre post
    simp [joinLoop_eq_map]
  · rw [joinLoop_eq_map]
    intro hmem
    obtain ⟨c, _, hc⟩ := List.mem_map.mp hmem
    exact completionEvent_ne_scanDone c hc
  · simp [coordinator_run]
  · simp [coordinator_run, joinLoop_eq_map, hlen]

/-- Witness for C2: a concrete batch of two tasks (one classified result, one
task failure) joined in the reverse of submission order emits exactly two
events plus the final completion signal. -/
theorem coordinator_emits_n_events_witness :
    (joinLoop [Except.error "task panicked",
               Except.ok ⟨⟨167772161, 22⟩, ConnectionStatus.Open⟩]).length = 2 :=
  (coordinator_emits_n_events
    [Except.ok ⟨⟨167772161, 22⟩, ConnectionStatus.Open⟩, Except.error "task panicked"]
    [Except.error "task panicked", Except.ok ⟨⟨167772161, 22⟩, ConnectionStatus.Open⟩]
    (List.Perm.swap _ _ _)).1

end ConnTester

namespace ConnTester

/-! ## String utilities on `List Char`

`build_port_list` (main.rs lines 153-193) works on Rust `&str` values via
`trim`, `split`, `contains` and `str::parse::<u16>`.  We mirror those
operations on `List Char` (the character sequence of the string). -/

/-- Rust `str::split(sep)` on a single separator character: splits into the
(possibly empty) chunks between separator occurrences.  Splitting the empty
string yields one empty chunk, as in Rust. -/
def splitOnPred (isSep : Char → Bool) : List Char → List (List Char)
  | [] => [[]]
  | c :: rest =>
    match splitOnPred isSep rest with
    | [] => [[c]]
    | g :: gs => if isSep c then [] :: g :: gs else (c :: g) :: gs

/-- `str::split` with a one-character separator. -/
def splitOnChar (sep : Char) (cs : List Char) : List (List Char) :=
  splitOnPred (fun c => c == sep) cs

/-- Rust `str::trim`: remove whitespace from both ends. -/
def trimChars (cs : List Char) : List Char :=
  ((cs.dropWhile Char.isWhitespace).reverse.dropWhile Char.isWhitespace).reverse

/-- Numeric value of a digit string (most significant first). -/
def digitsVal (cs : List Char) : Nat :=
  cs.foldl (fun acc c => 10 * acc + (c.toNat - 48)) 0

/-- Rust `str::parse::<u16>()`: an optional leading '+', then one or more
ASCII digits, whose value must fit in 16 bits; anything else is a parse
error (`none`). -/
def parse_u16 (cs : List Char) : Option Nat :=
  let ds := match cs with
    | [] => []
    | c :: rest => if c = '+' then rest else c :: rest
  if ds.isEmpty then none
  else if ds.all Char.isDigit then
    if digitsVal ds < 65536 then some (digitsVal ds) else none
  else none

/-- The body of `build_port_list`'s `for port in v` loop for one
comma-separated element (main.rs lines 157-191).  An element containing '-'
is trimmed, split on '-', its first two pieces parsed as u16 `start` and
`end`, and the Rust range `start..end` (i.e. `start, start+1, …, end-1`,
empty when `end ≤ start`) is appended; any other element is parsed as a
single u16 and appended.  A failed parse calls `error_handler` and never
returns, modelled as `none`. -/
def process_element (port : List Char) : Option (List Nat) :=
  if port.contains '-' then
    let range := splitOnChar '-' (trimChars port)
    match parse_u16 (range.getD 0 []), parse_u16 (range.getD 1 []) with
    | some s, some e => some (List.range' s (e - s))
    | some _, none => none
    | none, _ => none
  else
    match parse_u16 port with
    | some p => some [p]
    | none => none

/-- The accumulator loop of `build_port_list`: elements processed in input
order, each element's ports pushed onto `return_vector` in order. -/
def build_port_list_loop : List (List Char) → List Nat → Option (List Nat)
  | [], acc => some acc
  | p :: ps, acc =>
    match process_element p with
    | none => none
    | some xs => build_port_list_loop ps (acc ++ xs)

/-- `build_port_list` (main.rs lines 153-193): trim the raw input, split on
',', process each element in order. -/
def build_port_list (port_input : String) : Option (List Nat) :=
  build_port_list_loop (splitOnChar ',' (trimChars port_input.data)) []

/-- One `[0-9]{1,5}` token of the port-specification regex. -/
def portToken (t : List Char) : Bool :=
  !t.isEmpty && t.length ≤ 5 && t.all Char.isDigit

/-- The port-list validation regex `^([0-9]{1,5}[-,])*[0-9]{1,5}$`
(main.rs line 59).  Because the separators '-' and ',' are not digits, the
regex matches exactly the strings whose chunks between separator occurrences
are all 1-to-5-digit tokens, which is how we state it. -/
def port_list_pattern (s : String) : Bool :=
  (splitOnPred (fun c => c == '-' || c == ',') s.data).all portToken

end ConnTester

namespace ConnTester

/-! ## Support lemmas about the string utilities -/

theorem not_whitespace_of_digit (c : Char) (h : c.isDigit = true) :
    c.isWhitespace = false := by
  by_contra hw
  simp only [Bool.not_eq_false, Char.isWhitespace] at hw
  rcases Bool.or_eq_true_iff.mp hw with hw' | hn
  · rcases Bool.or_eq_true_iff.mp hw' with hw'' | hr
    · rcases Bool.or_eq_true_iff.mp hw'' with hsp | ht
      · cases (of_decide_eq_true hsp); simp [Char.isDigit] at h
      · cases (of_decide_eq_true ht); simp [Char.isDigit] at h
    · cases (of_decide_eq_true hr); simp [Char.isDigit] at h
  · cases (of_decide_eq_true hn); simp [Char.isDigit] at h

theorem ne_dash_of_digit (c : Char) (h : c.isDigit = true) : c ≠ '-' := by
  intro he
  cases he
  simp [Char.isDigit] at h

/-- A successful `parse_u16` input is nonempty and consists of a possible
leading '+' followed by digits only. -/
theorem parse_u16_chars (cs : List Char) (a : Nat) (h : parse_u16 cs = some a) :
    cs ≠ [] ∧ ∀ c ∈ cs, c = '+' ∨ c.isDigit = true := by
  cases cs with
  | nil => simp [parse_u16] at h
  | cons c rest =>
    refine ⟨by simp, ?_⟩
    by_cases hc : c = '+'
    · subst hc
      simp only [parse_u16, if_pos rfl] at h
      intro x hx
      rcases List.mem_cons.mp hx with hx | hx
      · exact Or.inl hx
      · right
        by_cases hne : rest.isEmpty
        · simp [hne] at h
        · by_cases hall : rest.all Char.isDigit
          · exact List.all_eq_true.mp hall x hx
          · simp [hne, hall] at h
    · simp only [parse_u16, if_neg hc] at h
      intro x hx
      right
      by_cases hall : (c :: rest).all Char.isDigit
      · exact List.all_eq_true.mp hall x hx
      · simp [hall] at h

theorem parse_u16_no_ws (cs : List Char) (a : Nat) (h : parse_u16 cs = some a) :
    ∀ c ∈ cs, c.isWhitespace = false := by
  intro c hc
  rcases (parse_u16_chars cs a h).2 c hc with h1 | h1
  · cases h1; decide
  · exact not_whitespace_of_digit c h1

theorem parse_u16_no_dash (cs : List Char) (a : Nat) (h : parse_u16 cs = some a) :
    ∀ c ∈ cs, c ≠ '-' := by
  intro c hc
  rcases (parse_u16_chars cs a h).2 c hc with h1 | h1
  · cases h1; decide
  · exact ne_dash_of_digit c h1

theorem dropWhile_eq_self_of_none (p : Char → Bool) (cs : List Char)
    (h : ∀ c ∈ cs, p c = false) : cs.dropWhile p = cs := by
  cases cs with
  | nil => rfl
  | cons c rest => simp [List.dropWhile_cons, h c (List.mem_cons_self c rest)]

theorem trimChars_eq_self (cs : List Char)
    (h : ∀ c ∈ cs, c.isWhitespace = false) : trimChars cs = cs := by
  unfold trimChars
  rw [dropWhile_eq_self_of_none _ _ h]
  rw [dropWhile_eq_self_of_none _ _ (by intro c hc; exact h c (List.mem_reverse.mp hc))]
  exact List.reverse_reverse cs

theorem splitOnPred_ne_nil (p : Char → Bool) (cs : List Char) :
    splitOnPred p cs ≠ [] := by
  induction cs with
  | nil => simp [splitOnPred]
  | cons c rest ih =>
    rw [splitOnPred]
    cases hsp : splitOnPred p rest with
    | nil => exact absurd hsp ih
    | cons g gs =>
      by_cases hc : p c <;> simp [hc]

theorem splitOnPred_no_sep (p : Char → Bool) (cs : List Char)
    (h : ∀ c ∈ cs, p c = false) : splitOnPred p cs = [cs] := by
  induction cs with
  | nil => rfl
  | cons c rest ih =>
    rw [splitOnPred]
    rw [ih (fun x hx => h x (List.mem_cons_of_mem c hx))]
    simp [h c (List.mem_cons_self c rest)]

theorem splitOnPred_append (p : Char → Bool) (xs ys : List Char) (c₀ : Char)
    (hc : p c₀ = true) (hxs : ∀ c ∈ xs, p c = false) :
    splitOnPred p (xs ++ c₀ :: ys) = xs :: splitOnPred p ys := by
  induction xs with
  | nil =>
    rw [List.nil_append, splitOnPred]
    cases hsp : splitOnPred p ys with
    | nil => exact absurd hsp (splitOnPred_ne_nil p ys)
    | cons g gs => simp [hc]
  | cons x xs' ih =>
    have hx : p x = false := hxs x (List.mem_cons_self x xs')
    rw [List.cons_append, splitOnPred,
      ih (fun c hcm => hxs c (List.mem_cons_of_mem x hcm))]
    simp [hx]

end ConnTester

namespace ConnTester

theorem pairwise_lt_range' (n s : Nat) :
    List.Pairwise (fun a b => a < b) (List.range' s n) := by
  induction n generalizing s with
  | zero => simp
  | succ m ih =>
    rw [List.range'_succ]
    refine List.Pairwise.cons ?_ (ih (s + 1))
    intro b hb
    have := (List.mem_range'_1.mp hb).1
    omega

/-- The range branch of `process_element`: an element made of a parseable
start, a '-', and a parseable end expands to the Rust range `start..end`. -/
theorem process_element_range (s e : List Char) (a b : Nat)
    (hs : parse_u16 s = some a) (he : parse_u16 e = some b) :
    process_element (s ++ '-' :: e) = some (List.range' a (b - a)) := by
  have hcont : (s ++ '-' :: e).contains '-' = true := by
    apply List.elem_iff.mpr
    simp
  have htrim : trimChars (s ++ '-' :: e) = s ++ '-' :: e := by
    apply trimChars_eq_self
    intro c hc
    rcases List.mem_append.mp hc with hcs | hce
    · exact parse_u16_no_ws s a hs c hcs
    · rcases List.mem_cons.mp hce with hcd | hce'
      · cases hcd; decide
      · exact parse_u16_no_ws e b he c hce'
  have hsplit : splitOnChar '-' (s ++ '-' :: e) = [s, e] := by
    unfold splitOnChar
    rw [splitOnPred_append _ s e '-' (by simp)
      (fun c hc => beq_eq_false_iff_ne.mpr (parse_u16_no_dash s a hs c hc))]
    rw [splitOnPred_no_sep _ e
      (fun c hc => beq_eq_false_iff_ne.mpr (parse_u16_no_dash e b he c hc))]
  simp [process_element, hcont, htrim, hsplit, hs, he]

/-- The single-port branch of `process_element`. -/
theorem process_element_single (el : List Char) (p : Nat)
    (hc : el.contains '-' = false) (hp : parse_u16 el = some p) :
    process_element el = some [p] := by
  have hnm : '-' ∉ el := by
    intro hm
    have h2 : el.contains '-' = true := List.elem_iff.mpr hm
    rw [h2] at hc
    cases hc
  simp [process_element, hp, hnm]

/-- The in-order concatenation of the per-element expansions: `some` of the
concatenated ports when every element processes, `none` as soon as one
fails. -/
def expandElements : List (List Char) → Option (List Nat)
  | [] => some []
  | p :: ps =>
    match process_element p, expandElements ps with
    | some xs, some rest => some (xs ++ rest)
    | some _, none => none
    | none, _ => none

/-- The accumulator loop appends each element's expansion in input order. -/
theorem build_port_list_loop_eq (elems : List (List Char)) (acc : List Nat) :
    build_port_list_loop elems acc
      = (expandElements elems).map (fun rest => acc ++ rest) := by
  induction elems generalizing acc with
  | nil => simp [build_port_list_loop, expandElements]
  | cons p ps ih =>
    cases hp : process_element p with
    | none => simp [build_port_list_loop, expandElements, hp]
    | some xs =>
      simp only [build_port_list_loop, hp]
      rw [ih]
      cases hps : expandElements ps with
      | none => simp [expandElements, hp, hps]
      | some t => simp [expandElements, hp, hps, List.append_assoc]

end ConnTester

namespace ConnTester

/-- C3: a `start-end` element (both pieces parsing as u16) expands to exactly
the ports `start, start+1, …, end-1` in ascending order — `start` included,
`end` excluded; a single-port element expands to exactly that port; and
`build_port_list` processes the comma-separated elements in input order,
concatenating their expansions with no deduplication. -/
theorem build_port_list_expansion :
    (∀ (s e : List Char) (a b : Nat), parse_u16 s = some a → parse_u16 e = some b →
      a ≤ b →
      process_element (s ++ '-' :: e) = some (List.range' a (b - a)) ∧
      (List.range' a (b - a)).length = b - a ∧
      (∀ i : Nat, i < b - a → (List.range' a (b - a)).get? i = some (a + i)) ∧
      List.Pairwise (fun x y => x < y) (List.range' a (b - a))) ∧
    (∀ (el : List Char) (p : Nat), el.contains '-' = false → parse_u16 el = some p →
      process_element el = some [p]) ∧
    (∀ input : String,
      build_port_list input
        = expandElements (splitOnChar ',' (trimChars input.data))) := by
  refine ⟨?_, ?_, ?_⟩
  · intro s e a b hs he _
    refine ⟨process_element_range s e a b hs he, by simp, ?_, pairwise_lt_range' _ _⟩
    intro i hi
    rw [List.get?_eq_getElem?, List.getElem?_eq_getElem (by simpa using hi)]
    simp [List.getElem_range']
  · exact process_element_single
  · intro input
    rw [build_port_list, build_port_list_loop_eq]
    cases expandElements (splitOnChar ',' (trimChars input.data)) <;> simp

/-- Witness for C3: the element `2-5` expands to the ports 2, 3, 4 (5
excluded), applied through the theorem at the concrete pieces. -/
theorem build_port_list_expansion_witness :
    process_element (['2'] ++ '-' :: ['5']) = some (List.range' 2 (5 - 2)) :=
  (build_port_list_expansion.1 ['2'] ['5'] 2 5 (by decide) (by decide) (by decide)).1

end ConnTester

namespace ConnTester

/-- The accumulator loop returns the empty list exactly when the accumulator
is empty and every element expands to the empty list. -/
theorem build_port_list_loop_empty (elems : List (List Char)) :
    ∀ (acc res : List Nat), build_port_list_loop elems acc = some res →
      (res = [] ↔ (acc = [] ∧ ∀ el ∈ elems, process_element el = some [])) := by
  induction elems with
  | nil =>
    intro acc res h
    simp only [build_port_list_loop, Option.some.injEq] at h
    subst h
    simp
  | cons p ps ih =>
    intro acc res h
    simp only [build_port_list_loop] at h
    cases hp : process_element p with
    | none => rw [hp] at h; cases h
    | some xs =>
      rw [hp] at h
      rw [ih (acc ++ xs) res h]
      rw [List.forall_mem_cons, hp]
      constructor
      · rintro ⟨hax, hall⟩
        rcases List.append_eq_nil.mp hax with ⟨ha, hx⟩
        exact ⟨ha, by rw [hx], hall⟩
      · rintro ⟨ha, hx, hall⟩
        refine ⟨?_, hall⟩
        rw [ha, (Option.some.injEq _ _).mp hx]
        rfl

end ConnTester

namespace ConnTester

/-- C6 counterexample: the string "80-80" is accepted by the port-list
validation pattern `^([0-9]{1,5}[-,])*[0-9]{1,5}$`, yet `build_port_list`
produces the empty port list for it (the Rust range `80..80` is empty), so
the port list handed to the engine is not always non-empty. -/
theorem port_pattern_accepts_empty_expansion :
    port_list_pattern "80-80" = true ∧ build_port_list "80-80" = some [] := by
  decide

/-- C6 (amended): for a port-specification string accepted by the validation
pattern, the port list built by `build_port_list` is empty exactly when every
comma-separated element of the input expands to no ports, and an element can
expand to no ports only if it is a `start-end` range element whose parsed
bounds satisfy `end ≤ start`; so the list handed to the engine is non-empty
unless every element is such a degenerate range. -/
theorem build_port_list_empty_characterization (s : String) (l : List Nat)
    (hacc : port_list_pattern s = true)
    (hb : build_port_list s = some l) :
    (l = [] ↔ ∀ el ∈ splitOnChar ',' (trimChars s.data), process_element el = some []) ∧
    (∀ (el : List Char) (xs : List Nat), process_element el = some xs → xs = [] →
      el.contains '-' = true ∧
      ∀ a b : Nat,
        parse_u16 ((splitOnChar '-' (trimChars el)).getD 0 []) = some a →
        parse_u16 ((splitOnChar '-' (trimChars el)).getD 1 []) = some b → b ≤ a) := by
  constructor
  · rw [build_port_list] at hb
    rw [build_port_list_loop_empty _ _ _ hb]
    simp
  · intro el xs hel hxs
    subst hxs
    by_cases hc : el.contains '-' = true
    · refine ⟨hc, ?_⟩
      intro a b ha hb'
      simp only [process_element, hc, if_true] at hel
      rw [ha, hb'] at hel
      simp only [Option.some.injEq] at hel
      have : b - a = 0 := List.range'_eq_nil.mp hel
      omega
    · exfalso
      simp only [process_element, Bool.not_eq_true] at hel hc
      rw [if_neg (by rw [hc]; simp)] at hel
      cases hp : parse_u16 el with
      | none => rw [hp] at hel; cases hel
      | some p => rw [hp] at hel; cases hel

/-- Witness for the amended C6 at the accepted input "80-80": its single
element "80-80" expands to no ports. -/
theorem build_port_list_empty_characterization_witness :
    process_element ('8' :: '0' :: '-' :: '8' :: ['0']) = some [] :=
  (build_port_list_empty_characterization "80-80" [] (by decide) (by decide)).1.mp rfl
    ('8' :: '0' :: '-' :: '8' :: ['0']) (by decide)

end ConnTester

namespace ConnTester

/-! ## CIDR block and address expansion (main.rs lines 86-90)

`main` parses the combined "id/len" string with `IpCidr::from_str` (the
`cidr` crate) and iterates the V4 block with `v4_cidr.iter()`.  The crate is
not part of this repository's sources, so the parsed block and its iteration
are modelled from the spec. -/

/-- Modelled from the spec: a parsed, valid IPv4 CIDR block (the `cidr`
crate's `Ipv4Cidr`, outside src/).  "NetworkRange: base_address … prefix_length
0..=32; base_address combined with prefix_length must form a representable
CIDR block" — the crate rejects base addresses with host bits set, so a valid
block's base is normalized (divisible by the block size). -/
structure Ipv4Cidr where
  base : Nat
  prefixLen : Nat
  base_lt : base < 2 ^ 32
  prefixLen_le : prefixLen ≤ 32
  normalized : base % 2 ^ (32 - prefixLen) = 0

/-- Modelled from the spec: the address iteration of the parsed block
(`v4_cidr.iter()`, main.rs line 89; the `cidr` crate, outside src/) —
"produce a lazy, finite … sequence of every IPv4 address contained in the
block, in ascending numeric order, including the network and broadcast
addresses": the 2^(32-p) consecutive addresses starting at the base. -/
def Ipv4Cidr.iter (c : Ipv4Cidr) : List Nat :=
  List.range' c.base (2 ^ (32 - c.prefixLen))

/-! ## Error codes and the error handler (main.rs lines 24-34, 240-307) -/

/-- `ErrorCodes::TEST_ERROR` (main.rs line 25). -/
def ErrorCodes.TEST_ERROR : Int := 3000

/-- `ErrorCodes::INVALID_VARIABLE`. -/
def ErrorCodes.INVALID_VARIABLE : Int := 3001

/-- `ErrorCodes::INVALID_INPUT`. -/
def ErrorCodes.INVALID_INPUT : Int := 3002

/-- `ErrorCodes::IMPOSSIBLE_CIDR`. -/
def ErrorCodes.IMPOSSIBLE_CIDR : Int := 3003

/-- `ErrorCodes::VALID_PORT_PARSE_FAILURE`. -/
def ErrorCodes.VALID_PORT_PARSE_FAILURE : Int := 3004

/-- `ErrorCodes::SOCKET_ADDRESS_FAILED_TO_SET`. -/
def ErrorCodes.SOCKET_ADDRESS_FAILED_TO_SET : Int := 9996

/-- `ErrorCodes::INVALID_VERBOSITY_LEVEL`. -/
def ErrorCodes.INVALID_VERBOSITY_LEVEL : Int := 9997

/-- `ErrorCodes::NO_VARIABLE_FOR_ERROR`. -/
def ErrorCodes.NO_VARIABLE_FOR_ERROR : Int := 9998

/-- `ErrorCodes::NO_ERROR_CODE_GIVEN`. -/
def ErrorCodes.NO_ERROR_CODE_GIVEN : Int := 9999

/-- The process exit code produced by `error_handler` (main.rs
lines 240-307): the function prints a diagnostic and calls
`process::exit(error_code)`, except that the `(INVALID_VARIABLE, None)` arm
and the wildcard arm re-enter `error_handler` with `NO_VARIABLE_FOR_ERROR`
resp. `NO_ERROR_CODE_GIVEN` (both of which exit directly), so those two
recursive cases are unfolded here. -/
def error_handler_code (error_code : Int) (error_var_name : Option String) : Int :=
  if error_code = ErrorCodes.TEST_ERROR then error_code
  else if error_code = ErrorCodes.INVALID_VARIABLE then
    match error_var_name with
    | none => ErrorCodes.NO_VARIABLE_FOR_ERROR
    | some _ => error_code
  else if error_code = ErrorCodes.INVALID_INPUT then error_code
  else if error_code = ErrorCodes.IMPOSSIBLE_CIDR then error_code
  else if error_code = ErrorCodes.VALID_PORT_PARSE_FAILURE then error_code
  else if error_code = ErrorCodes.SOCKET_ADDRESS_FAILED_TO_SET then error_code
  else if error_code = ErrorCodes.INVALID_VERBOSITY_LEVEL then error_code
  else if error_code = ErrorCodes.NO_VARIABLE_FOR_ERROR then error_code
  else if error_code = ErrorCodes.NO_ERROR_CODE_GIVEN then error_code
  else ErrorCodes.NO_ERROR_CODE_GIVEN

/-- `build_valid_network_configuration` (main.rs lines 195-218): join the
trimmed id and prefix strings (inserting '/' unless the prefix string already
carries one) and parse with `IpCidr::from_str`.  The parser comes from the
`cidr` crate (outside src/) and is abstracted as the `parseCidr` parameter; a
parse failure calls `error_handler(IMPOSSIBLE_CIDR, …)`, which exits the
process — modelled as `Except.error` carrying the exit code. -/
def build_valid_network_configuration (parseCidr : String → Option Ipv4Cidr)
    (network_id network_cidr : String) : Except Int Ipv4Cidr :=
  let network_string :=
    if network_cidr.contains '/' then network_id.trim ++ network_cidr.trim
    else network_id.trim ++ "/" ++ network_cidr.trim
  match parseCidr network_string with
  | some network => Except.ok network
  | none => Except.error (error_handler_code ErrorCodes.IMPOSSIBLE_CIDR none)

/-! ## Target submission (main.rs lines 88-107)

The nested loop `for ip in v4_cidr.iter() { for port in &port_list { … } }`
formats "address:port", parses it back with `SocketAddr::from_str` (failure
calls `error_handler(SOCKET_ADDRESS_FAILED_TO_SET, …)`, which exits) and
spawns `check_target` on the parsed endpoint.  The endpoint parser is std
library code (outside src/), abstracted as the `mk` parameter. -/

/-- The inner `for port in &port_list` loop for one address. -/
def spawn_inner (mk : Nat → Nat → Option SocketAddr) (a : Nat) :
    List Nat → Except Int (List SocketAddr)
  | [] => Except.ok []
  | p :: ps =>
    match mk a p with
    | none => Except.error (error_handler_code ErrorCodes.SOCKET_ADDRESS_FAILED_TO_SET none)
    | some t =>
      match spawn_inner mk a ps with
      | Except.error c => Except.error c
      | Except.ok ts => Except.ok (t :: ts)

/-- The outer `for ip in v4_cidr.iter()` loop: the submission order of the
spawned targets, address-major then port-minor. -/
def spawn_targets (mk : Nat → Nat → Option SocketAddr) :
    List Nat → List Nat → Except Int (List SocketAddr)
  | [], _ => Except.ok []
  | a :: rest, ports =>
    match spawn_inner mk a ports with
    | Except.error c => Except.error c
    | Except.ok ts =>
      match spawn_targets mk rest ports with
      | Except.error c => Except.error c
      | Except.ok more => Except.ok (ts ++ more)

/-- Modelled from the spec: `SocketAddr::from_str` applied to the formatted
"address:port" string (std library, outside src/) — "Building a Target's
network endpoint representation from an address and port must always succeed
for valid IPv4 addresses and any u16 port". -/
def mk_endpoint (a p : Nat) : Option SocketAddr := some ⟨a, p⟩

/-- The concrete target-submission sequence of `main`. -/
def submit_targets (addrs ports : List Nat) : Except Int (List SocketAddr) :=
  spawn_targets mk_endpoint addrs ports

/-! ## The network-cidr validation pattern (main.rs line 58) -/

/-- The regex `^\/{0,1}[0-9]{2}$` (main.rs line 58): an optional leading '/'
followed by exactly two decimal digits. -/
def network_cidr_pattern (s : String) : Bool :=
  let cs := match s.data with
    | c :: rest => if c = '/' then rest else c :: rest
    | [] => []
  match cs with
  | [a, b] => a.isDigit && b.isDigit
  | _ => false

end ConnTester

namespace ConnTester

theorem spawn_inner_total (a : Nat) (ports : List Nat) :
    spawn_inner mk_endpoint a ports = Except.ok (ports.map fun p => SocketAddr.mk a p) := by
  induction ports with
  | nil => rfl
  | cons p ps ih => simp [spawn_inner, mk_endpoint, ih]

theorem spawn_targets_total (ports : List Nat) (addrs : List Nat) :
    spawn_targets mk_endpoint addrs ports
      = Except.ok (addrs.flatMap fun a => ports.map fun p => SocketAddr.mk a p) := by
  induction addrs with
  | nil => rfl
  | cons a rest ih => simp [spawn_targets, spawn_inner_total, ih]

theorem cross_product_length (addrs ports : List Nat) :
    (addrs.flatMap fun a => ports.map fun p => SocketAddr.mk a p).length
      = addrs.length * ports.length := by
  induction addrs with
  | nil => simp
  | cons a rest ih =>
    simp only [List.flatMap_cons, List.length_append, List.length_map, ih, List.length_cons]
    ring

theorem spawn_inner_error_code (mk : Nat → Nat → Option SocketAddr) (a : Nat)
    (ports : List Nat) :
    ∀ c : Int, spawn_inner mk a ports = Except.error c →
      c = ErrorCodes.SOCKET_ADDRESS_FAILED_TO_SET := by
  induction ports with
  | nil => intro c h; cases h
  | cons p ps ih =>
    intro c h
    rw [spawn_inner] at h
    cases hmk : mk a p with
    | none =>
      rw [hmk] at h
      have hc : error_handler_code ErrorCodes.SOCKET_ADDRESS_FAILED_TO_SET none
          = ErrorCodes.SOCKET_ADDRESS_FAILED_TO_SET := by decide
      simp only [hc] at h
      exact (Except.error.injEq _ _).mp h.symm
    | some t =>
      rw [hmk] at h
      cases hsi : spawn_inner mk a ps with
      | error c' =>
        rw [hsi] at h
        simp only [Except.error.injEq] at h
        exact h ▸ ih c' hsi
      | ok ts => rw [hsi] at h; cases h

theorem spawn_targets_error_code (mk : Nat → Nat → Option SocketAddr)
    (addrs ports : List Nat) :
    ∀ c : Int, spawn_targets mk addrs ports = Except.error c →
      c = ErrorCodes.SOCKET_ADDRESS_FAILED_TO_SET := by
  induction addrs with
  | nil => intro c h; cases h
  | cons a rest ih =>
    intro c h
    rw [spawn_targets] at h
    cases hsi : spawn_inner mk a ports with
    | error c' =>
      rw [hsi] at h
      simp only [Except.error.injEq] at h
      exact h ▸ spawn_inner_error_code mk a ports c' hsi
    | ok ts =>
      rw [hsi] at h
      cases hst : spawn_targets mk rest ports with
      | error c' =>
        rw [hst] at h
        simp only [Except.error.injEq] at h
        exact h ▸ ih c' hst
      | ok more => rw [hst] at h; cases h

end ConnTester

namespace ConnTester

/-- C5: for every valid IPv4 CIDR block with prefix length p, the address
iteration yields exactly 2^(32-p) addresses, in strictly ascending numeric
order, including the network address (the base) and the broadcast address
(the last address of the block); for p = 32 it yields exactly the one
normalized base address. -/
theorem cidr_iteration_spec (c : Ipv4Cidr) :
    c.iter.length = 2 ^ (32 - c.prefixLen) ∧
    List.Pairwise (fun x y => x < y) c.iter ∧
    c.base ∈ c.iter ∧
    (c.base + 2 ^ (32 - c.prefixLen) - 1) ∈ c.iter ∧
    (c.prefixLen = 32 → c.iter = [c.base]) := by
  have hpos : 0 < 2 ^ (32 - c.prefixLen) := Nat.pos_pow_of_pos _ (by norm_num)
  refine ⟨by simp [Ipv4Cidr.iter], pairwise_lt_range' _ _, ?_, ?_, ?_⟩
  · exact List.mem_range'_1.mpr ⟨Nat.le_refl _, by omega⟩
  · exact List.mem_range'_1.mpr ⟨by omega, by omega⟩
  · intro h32
    rw [Ipv4Cidr.iter, h32]
    norm_num

/-- Witness for C5: the /32 block at 192.168.0.1 expands to exactly the one
address 192.168.0.1. -/
theorem cidr_iteration_spec_witness :
    Ipv4Cidr.iter ⟨3232235521, 32, by norm_num, by norm_num, by norm_num⟩
      = [3232235521] :=
  (cidr_iteration_spec ⟨3232235521, 32, by norm_num, by norm_num, by norm_num⟩).2.2.2.2 rfl

/-- C4: the submitted target sequence is exactly the cross product of the
expanded addresses and the port list, address-major and port-minor, with no
deduplication, and its length is (address count) × (port count). -/
theorem submit_targets_cross_product (addrs ports : List Nat) :
    submit_targets addrs ports
      = Except.ok (addrs.flatMap fun a => ports.map fun p => SocketAddr.mk a p) ∧
    (addrs.flatMap fun a => ports.map fun p => SocketAddr.mk a p).length
      = addrs.length * ports.length :=
  ⟨spawn_targets_total ports addrs, cross_product_length addrs ports⟩

/-- C8: if the combined "id/len" string does not parse as a CIDR block,
`build_valid_network_configuration` terminates the process through the error
handler with exit code IMPOSSIBLE_CIDR = 3003 ≠ 0 and produces no network to
probe; and if any endpoint construction fails during target submission, the
submission loop terminates the process through the error handler with exit
code SOCKET_ADDRESS_FAILED_TO_SET = 9996 ≠ 0 and produces no target list —
neither failure is recovered into a per-target result. -/
theorem construction_failures_fatal :
    (∀ (parseCidr : String → Option Ipv4Cidr) (network_id network_cidr : String),
      parseCidr (if network_cidr.contains '/' then network_id.trim ++ network_cidr.trim
                 else network_id.trim ++ "/" ++ network_cidr.trim) = none →
      build_valid_network_configuration parseCidr network_id network_cidr
          = Except.error ErrorCodes.IMPOSSIBLE_CIDR ∧
      ErrorCodes.IMPOSSIBLE_CIDR ≠ (0 : Int) ∧
      ∀ net, build_valid_network_configuration parseCidr network_id network_cidr
          ≠ Except.ok net) ∧
    (∀ (mk : Nat → Nat → Option SocketAddr) (addrs ports : List Nat) (c : Int),
      spawn_targets mk addrs ports = Except.error c →
      c = ErrorCodes.SOCKET_ADDRESS_FAILED_TO_SET ∧ c ≠ 0 ∧
      ∀ ts, spawn_targets mk addrs ports ≠ Except.ok ts) := by
  constructor
  · intro parseCidr network_id network_cidr hparse
    have heq : build_valid_network_configuration parseCidr network_id network_cidr
        = Except.error ErrorCodes.IMPOSSIBLE_CIDR := by
      rw [build_valid_network_configuration]
      rw [hparse]
      have : error_handler_code ErrorCodes.IMPOSSIBLE_CIDR none
          = ErrorCodes.IMPOSSIBLE_CIDR := by decide
      rw [this]
    refine ⟨heq, by decide, ?_⟩
    intro net hok
    rw [heq] at hok
    cases hok
  · intro mk addrs ports c h
    have hc := spawn_targets_error_code mk addrs ports c h
    refine ⟨hc, by rw [hc]; decide, ?_⟩
    intro ts hok
    rw [hok] at h
    cases h

/-- Witness for C8: a parser rejecting every string makes the construction
phase exit with 3003, and an endpoint constructor failing on one concrete
target list makes the submission loop exit with 9996. -/
theorem construction_failures_fatal_witness :
    build_valid_network_configuration (fun _ => none) "192.168.0.1" "24"
        = Except.error ErrorCodes.IMPOSSIBLE_CIDR ∧
    (∀ c : Int, spawn_targets (fun _ _ => none) [3232235521] [80] = Except.error c →
      c = ErrorCodes.SOCKET_ADDRESS_FAILED_TO_SET) :=
  ⟨(construction_failures_fatal.1 (fun _ => none) "192.168.0.1" "24" rfl).1,
   fun c h => (construction_failures_fatal.2 (fun _ _ => none) [3232235521] [80] c h).1⟩

/-- C7 counterexample: 8 is a prefix length in 0..=32 whose decimal string
representation "8" the network-cidr pattern rejects, while 33 is outside
0..=32 yet the pattern accepts "33" — both directions of the claim fail. -/
theorem network_cidr_pattern_counterexample :
    (8 : Nat) ≤ 32 ∧ network_cidr_pattern (Nat.repr 8) = false ∧
    ¬((33 : Nat) ≤ 32) ∧ network_cidr_pattern (Nat.repr 33) = true := by
  decide

/-- C7 (amended): the network-cidr pattern `^\/{0,1}[0-9]{2}$` accepts the
decimal string representation of a prefix-length value p (with or without a
leading '/') exactly when that representation has two digits, i.e. when
10 ≤ p ≤ 99: it rejects the in-range one-digit values 0-9 and accepts the
out-of-range values 33-99. -/
theorem network_cidr_pattern_two_digits (p : Nat) (h : p ≤ 99) :
    (network_cidr_pattern (Nat.repr p) = true ↔ 10 ≤ p) ∧
    (network_cidr_pattern ("/" ++ Nat.repr p) = true ↔ 10 ≤ p) := by
  revert h
  revert p
  decide

/-- Witness for the amended C7: the pattern accepts "24" and "/24", and
rejects "8". -/
theorem network_cidr_pattern_two_digits_witness :
    network_cidr_pattern (Nat.repr 24) = true ∧
    network_cidr_pattern ("/" ++ Nat.repr 24) = true ∧
    network_cidr_pattern (Nat.repr 8) = false :=
  ⟨(network_cidr_pattern_two_digits 24 (by decide)).1.mpr (by decide),
   (network_cidr_pattern_two_digits 24 (by decide)).2.mpr (by decide),
   by
    have h := (network_cidr_pattern_two_digits 8 (by decide)).1
    cases hv : network_cidr_pattern (Nat.repr 8) with
    | false => rfl
    | true => exact absurd (h.mp hv) (by decide)⟩

end ConnTester
